import Mathlib

/-!
Verification of the zketech_controller battery-tester driver.

The definitions below are a shallow embedding of `src/zketech.py` and of the
`SafetyWatcher` class of `src/cmd_control.py`:

* Python byte strings become `List Nat` (each element a byte value);
* Python `float` values become `ℚ` (the code only adds, divides and compares);
* Python `int(x)` truncation toward zero becomes `pyInt`;
* fallible code (a `raise` reaching the caller) becomes `Except` / `Option`;
* the serial transport is cut at its call boundary: `send_request` reaching the
  wire is recorded as an `OpResult.sent` value, and `read_response` takes the
  byte buffer the transport returned as an explicit argument.

Mutable session state (`device_state`, `prog_state`, `part_number`) is threaded
explicitly as a `ZkState` value.
-/

namespace Zketech

/-- Marker constant `BEGIN_MARKER = 250` from `zketech.py`. -/
def BEGIN_MARKER : Nat := 250

/-- Marker constant `END_MARKER = 248` from `zketech.py`. -/
def END_MARKER : Nat := 248

/-- Python `int(x)` on a float: truncation toward zero. -/
def pyInt (q : ℚ) : Int := if 0 ≤ q then ⌊q⌋ else ⌈q⌉

/-- The `DeviceState` enum of `zketech.py` (session state, defined by the driver). -/
inductive DeviceState where
  | disconnected
  | idle
  | monitoring
  | testing
  | ending
deriving Repr, DecidableEq

/-- The `ProgState` enum of `zketech.py` (set program, defined by the driver). -/
inductive ProgState where
  | d_cc
  | d_cp
  | c_nimh
  | c_nicd
  | c_liion
  | c_life
  | c_vrla
  | c_cv
deriving Repr, DecidableEq

/-- The `ReqCode` enum of `zketech.py`.  In the Python source `conti_c_cv` is
assigned the same value `0b01111000` as `start_c_cv`, so the Python `Enum`
machinery makes it an alias of `start_c_cv`; it is therefore not a separate
constructor here. -/
inductive ReqCode where
  | stop_device
  | stop_test
  | start_device
  | mes_resistance
  | update_test
  | calibrate
  | start_d_cc
  | start_d_cp
  | start_c_nimh
  | start_c_nicd
  | start_c_liion
  | start_c_life
  | start_c_vrla
  | start_c_cv
  | conti_d_cc
  | conti_d_cp
  | conti_c_nimh
  | conti_c_nicd
  | conti_c_liion
  | conti_c_life
  | conti_c_vrla
deriving Repr, DecidableEq

/-- The numeric value of each `ReqCode` member, as in `zketech.py`. -/
def ReqCode.val : ReqCode → Nat
  | .stop_device => 6
  | .stop_test => 2
  | .start_device => 5
  | .mes_resistance => 9
  | .update_test => 7
  | .calibrate => 4
  | .start_d_cc => 1
  | .start_d_cp => 17
  | .start_c_nimh => 33
  | .start_c_nicd => 49
  | .start_c_liion => 65
  | .start_c_life => 81
  | .start_c_vrla => 97
  | .start_c_cv => 120
  | .conti_d_cc => 8
  | .conti_d_cp => 24
  | .conti_c_nimh => 40
  | .conti_c_nicd => 56
  | .conti_c_liion => 72
  | .conti_c_life => 88
  | .conti_c_vrla => 104

/-- Python `ReqCode(n)`: enum lookup by value, `none` models the raised
`ValueError` for an unknown value. -/
def ReqCode.ofVal : Nat → Option ReqCode
  | 6 => some .stop_device
  | 2 => some .stop_test
  | 5 => some .start_device
  | 9 => some .mes_resistance
  | 7 => some .update_test
  | 4 => some .calibrate
  | 1 => some .start_d_cc
  | 17 => some .start_d_cp
  | 33 => some .start_c_nimh
  | 49 => some .start_c_nicd
  | 65 => some .start_c_liion
  | 81 => some .start_c_life
  | 97 => some .start_c_vrla
  | 120 => some .start_c_cv
  | 8 => some .conti_d_cc
  | 24 => some .conti_d_cp
  | 40 => some .conti_c_nimh
  | 56 => some .conti_c_nicd
  | 72 => some .conti_c_liion
  | 88 => some .conti_c_life
  | 104 => some .conti_c_vrla
  | _ => none

/-- The `StateCode` enum of `zketech.py` (status part of a response code). -/
inductive StateCode where
  | init
  | ended
  | testing
  | ending
deriving Repr, DecidableEq

/-- The numeric value of each `StateCode` member. -/
def StateCode.val : StateCode → Nat
  | .init => 10
  | .ended => 0
  | .testing => 1
  | .ending => 2

/-- Python `StateCode(n)` lookup. -/
def StateCode.ofVal : Nat → Option StateCode
  | 10 => some .init
  | 0 => some .ended
  | 1 => some .testing
  | 2 => some .ending
  | _ => none

/-- The `ProgCode` enum of `zketech.py` (program part of a response code). -/
inductive ProgCode where
  | d_cc
  | d_cp
  | c_nimh
  | c_nicd
  | c_liion
  | c_life
  | c_vrla
  | c_cv
deriving Repr, DecidableEq

/-- The numeric value of each `ProgCode` member. -/
def ProgCode.val : ProgCode → Nat
  | .d_cc => 0
  | .d_cp => 1
  | .c_nimh => 2
  | .c_nicd => 3
  | .c_liion => 4
  | .c_life => 5
  | .c_vrla => 6
  | .c_cv => 7

/-- Python `ProgCode(n)` lookup. -/
def ProgCode.ofVal : Nat → Option ProgCode
  | 0 => some .d_cc
  | 1 => some .d_cp
  | 2 => some .c_nimh
  | 3 => some .c_nicd
  | 4 => some .c_liion
  | 5 => some .c_life
  | 6 => some .c_vrla
  | 7 => some .c_cv
  | _ => none

/-- `self.prog_state = ProgState(data.prog_code.value)` in `read_response`:
the program codes map onto the program states by equal value. -/
def ProgState.ofProgCode : ProgCode → ProgState
  | .d_cc => .d_cc
  | .d_cp => .d_cp
  | .c_nimh => .c_nimh
  | .c_nicd => .c_nicd
  | .c_liion => .c_liion
  | .c_life => .c_life
  | .c_vrla => .c_vrla
  | .c_cv => .c_cv

/-- The `PartNumber` enum of `zketech.py` (device model identifiers 1..19). -/
inductive PartNumber where
  | ebc_a
  | ebc_ah
  | ebc_b
  | ebc_bh
  | ebc_a05
  | ebc_a10h
  | ebc_a10
  | ebc_b10
  | ebc_a20
  | ebc_a40l
  | ebd_a
  | ebd_ah
  | ebd_b
  | ebd_bh
  | ebd_a10
  | ebd_a15
  | ebd_a2s
  | ebd_a5s
  | ebd_a20h
deriving Repr, DecidableEq

/-- The numeric value of each `PartNumber` member. -/
def PartNumber.val : PartNumber → Nat
  | .ebc_a => 1
  | .ebc_ah => 2
  | .ebc_b => 3
  | .ebc_bh => 4
  | .ebc_a05 => 5
  | .ebc_a10h => 6
  | .ebc_a10 => 7
  | .ebc_b10 => 8
  | .ebc_a20 => 9
  | .ebc_a40l => 10
  | .ebd_a => 11
  | .ebd_ah => 12
  | .ebd_b => 13
  | .ebd_bh => 14
  | .ebd_a10 => 15
  | .ebd_a15 => 16
  | .ebd_a2s => 17
  | .ebd_a5s => 18
  | .ebd_a20h => 19

/-- Python `PartNumber(n)` lookup. -/
def PartNumber.ofVal : Nat → Option PartNumber
  | 1 => some .ebc_a
  | 2 => some .ebc_ah
  | 3 => some .ebc_b
  | 4 => some .ebc_bh
  | 5 => some .ebc_a05
  | 6 => some .ebc_a10h
  | 7 => some .ebc_a10
  | 8 => some .ebc_b10
  | 9 => some .ebc_a20
  | 10 => some .ebc_a40l
  | 11 => some .ebd_a
  | 12 => some .ebd_ah
  | 13 => some .ebd_b
  | 14 => some .ebd_bh
  | 15 => some .ebd_a10
  | 16 => some .ebd_a15
  | 17 => some .ebd_a2s
  | 18 => some .ebd_a5s
  | 19 => some .ebd_a20h
  | _ => none

/-- `zketech_checksum` from `zketech.py`: `reduce(xor, buff) % 240`.
Python's `reduce` without an initial value agrees with a fold starting from `0`
on the non-empty slices this code applies it to, because `0` is the identity of
xor. -/
def zketech_checksum (buff : List Nat) : Nat :=
  (buff.foldl (fun a b => a ^^^ b) 0) % 240

/-- `check_buffer_validity` from `zketech.py`.  The Python function is a
cascade of early `return False` branches; the cascade is written here as the
conjunction of its conditions, in source order.  `buff[0]`, `buff[-1]`,
`buff[-2]`, `buff[-3]` and the slice `buff[1:-2]` are rendered with `get?`,
`drop` and `take` at the corresponding indices. -/
def check_buffer_validity (buff : List Nat) : Bool :=
  decide (buff.length = 10 ∨ buff.length = 19) &&
  (buff.get? 0 == some BEGIN_MARKER) &&
  (buff.get? (buff.length - 1) == some END_MARKER) &&
  (buff.get? (buff.length - 2) ==
    some (zketech_checksum ((buff.drop 1).take (buff.length - 3)))) &&
  (if buff.length = 10 then (ReqCode.ofVal ((buff.get? 1).getD 0)).isSome else true) &&
  (if buff.length = 19 then
      (StateCode.ofVal ((buff.get? 1).getD 0 / 10)).isSome &&
      (ProgCode.ofVal ((buff.get? 1).getD 0 % 10)).isSome &&
      (PartNumber.ofVal ((buff.get? (buff.length - 3)).getD 0)).isSome
    else true)

/-- The reason attached to each early `return False` branch of
`check_buffer_validity` (the warning the Python code logs there). -/
inductive BuffErr where
  | length
  | begin_marker
  | end_marker
  | checksum
  | req_code
  | state_code
  | prog_code
  | part_number
deriving Repr, DecidableEq

/-- `check_buffer_validity` enriched with the reason of the first failing
check: `some r` when the cascade takes the early `return False` branch that
logs reason `r`, `none` when the buffer is accepted.  The checks appear in the
exact order of the Python source. -/
def buffer_check_error (buff : List Nat) : Option BuffErr :=
  if ¬(buff.length = 10 ∨ buff.length = 19) then some .length
  else if ¬(buff.get? 0 = some BEGIN_MARKER) then some .begin_marker
  else if ¬(buff.get? (buff.length - 1) = some END_MARKER) then some .end_marker
  else if ¬(buff.get? (buff.length - 2) =
      some (zketech_checksum ((buff.drop 1).take (buff.length - 3)))) then some .checksum
  else if buff.length = 10 ∧ (ReqCode.ofVal ((buff.get? 1).getD 0)).isNone then some .req_code
  else if buff.length = 19 ∧ (StateCode.ofVal ((buff.get? 1).getD 0 / 10)).isNone then
    some .state_code
  else if buff.length = 19 ∧ (ProgCode.ofVal ((buff.get? 1).getD 0 % 10)).isNone then
    some .prog_code
  else if buff.length = 19 ∧ (PartNumber.ofVal ((buff.get? (buff.length - 3)).getD 0)).isNone then
    some .part_number
  else none

/-- `RequestDataSet` from `zketech.py`: the fields its `__init__` stores
(the constant begin/end markers are not repeated here). -/
structure RequestDataSet where
  req_code : ReqCode
  p1 : Nat
  p2 : Nat
  p3 : Nat
  p1_h : Nat
  p1_l : Nat
  p2_h : Nat
  p2_l : Nat
  p3_h : Nat
  p3_l : Nat
  checksum : Nat
deriving Repr, DecidableEq

/-- `RequestDataSet.__init__`: `none` models the raised `ValueError`.  The
parameters are natural numbers, so the Python check `p < 0` can never fire
here; the `p > 57600` check is kept as in the source. -/
def RequestDataSet.mk? (req_code : ReqCode) (p1 p2 p3 : Nat) : Option RequestDataSet :=
  if p1 > 57600 ∨ p2 > 57600 ∨ p3 > 57600 then none
  else some
    { req_code := req_code
      p1 := p1
      p2 := p2
      p3 := p3
      p1_h := p1 / 240
      p1_l := p1 % 240
      p2_h := p2 / 240
      p2_l := p2 % 240
      p3_h := p3 / 240
      p3_l := p3 % 240
      checksum := zketech_checksum
        [req_code.val, p1 / 240, p1 % 240, p2 / 240, p2 % 240, p3 / 240, p3 % 240] }

/-- `RequestFrame.get_buffer` from `zketech.py`: lay the ten byte values out
and re-verify them; return `b''` (here `[]`) if the self-built frame does not
validate. -/
def RequestFrame.get_buffer (data : RequestDataSet) : List Nat :=
  let buff : List Nat :=
    [BEGIN_MARKER, data.req_code.val, data.p1_h, data.p1_l, data.p2_h, data.p2_l,
     data.p3_h, data.p3_l, data.checksum, END_MARKER]
  if check_buffer_validity buff then buff else []

/-- `ResponseDataSet` from `zketech.py`: the fields its `__init__` stores.
`i` and `u` are Python floats obtained by dividing an integer by 1000; they
are carried as exact rationals. -/
structure ResponseDataSet where
  state_code : StateCode
  prog_code : ProgCode
  i : ℚ
  u : ℚ
  c : Nat
  unknown : Nat
  p1 : Nat
  p2 : Nat
  p3 : Nat
  part_number : PartNumber
  checksum : Nat
deriving Repr, DecidableEq

/-- `ResponseDataSet.__init__` on the 17 non-marker values of a response
frame: joins the high/low parts and scales the metrics.  `none` models the
`ValueError` a failed enum lookup would raise. -/
def ResponseDataSet.ofValues (rc ih il uh ul ch cl nh nl q1h q1l q2h q2l q3h q3l pnv cs : Nat) :
    Option ResponseDataSet := do
  let sc ← StateCode.ofVal (rc / 10)
  let pc ← ProgCode.ofVal (rc % 10)
  let pn ← PartNumber.ofVal pnv
  pure
    { state_code := sc
      prog_code := pc
      i := ((ih * 240 + il : Nat) : ℚ) / 1000
      u := ((uh * 240 + ul : Nat) : ℚ) / 1000
      c := ch * 240 + cl
      unknown := nh * 240 + nl
      p1 := q1h * 240 + q1l
      p2 := q2h * 240 + q2l
      p3 := q3h * 240 + q3l
      part_number := pn
      checksum := cs }

/-- `ResponseFrame.get_response_data_set` from `zketech.py`: `None` when the
buffer fails validation; otherwise unpack the 19 bytes and build the data set.
The second `none` branch models the `struct.error` that `struct.unpack` raises
when a validated buffer does not hold exactly 19 bytes (a valid 10-byte
request echo). -/
def ResponseFrame.get_response_data_set (buff : List Nat) : Option ResponseDataSet :=
  if check_buffer_validity buff then
    match buff with
    | [_, rc, ih, il, uh, ul, ch, cl, nh, nl, q1h, q1l, q2h, q2l, q3h, q3l, pnv, cs, _] =>
        ResponseDataSet.ofValues rc ih il uh ul ch cl nh nl q1h q1l q2h q2l q3h q3l pnv cs
    | _ => none
  else none

/-- The session state the `Zketech` object mutates: `device_state`,
`prog_state` and `part_number` (the write-only `battery_type` attribute is
omitted: nothing reads it). -/
structure ZkState where
  device_state : DeviceState
  prog_state : Option ProgState
  part_number : Option PartNumber
deriving Repr, DecidableEq

/-- An exception escaping a Python method uncaught. -/
inductive PyError where
  | unpackError
  | zeroDivision
  | portClosed
deriving Repr, DecidableEq

/-- `Zketech.read_response` from `zketech.py`.  `isOpen` is the transport's
`isOpen()` answer and `incoming` the byte buffer `self.read(size=19)`
returned (the `in_waiting`/`reset_input_buffer` drain only touches the
transport).  `.error .unpackError` models the exception raised when a
validated buffer cannot be unpacked as 19 bytes. -/
def read_response (isOpen : Bool) (incoming : List Nat) (s : ZkState) :
    Except PyError (ZkState × Option ResponseDataSet) :=
  let s := { s with part_number := none }
  if ¬isOpen then .ok ({ s with device_state := .disconnected }, none)
  else if incoming = [] then .ok ({ s with device_state := .idle }, none)
  else if ¬check_buffer_validity incoming then .ok (s, none)
  else
    let s := { s with device_state := .monitoring }
    match ResponseFrame.get_response_data_set incoming with
    | none => .error .unpackError
    | some data =>
        let s := { s with part_number := some data.part_number }
        let s := if data.state_code = .testing then { s with device_state := .testing } else s
        let s := if data.state_code = .ending then { s with device_state := .ending } else s
        let s := { s with prog_state := some (ProgState.ofProgCode data.prog_code) }
        .ok (s, some data)

/-- Python truthiness of an optional float: `not x` is true when `x` is
`None` or `0.0`. -/
def optFalsy (x : Option ℚ) : Bool :=
  match x with
  | none => true
  | some q => q == 0

/-- The `SafetyWatcher` state of `cmd_control.py`: minimum and last observed
voltage and current, all initialised to `None`. -/
structure SafetyWatcher where
  min_voltage : Option ℚ := none
  min_current : Option ℚ := none
  last_voltage : Option ℚ := none
  last_current : Option ℚ := none
deriving Repr, DecidableEq

/-- `SafetyWatcher.update` from `cmd_control.py`, exactly as written: reset
the minima when the status is not `testing`; return early when either minimum
is falsy (`None` or `0.0`); otherwise record the last sample, seed the minima
if they are falsy (unreachable after the early return), else take the
pointwise minimum.  The Python return value (`None` or `False`) is ignored by
every caller, so only the state is modelled. -/
def SafetyWatcher.update (s : SafetyWatcher) (resp : ResponseDataSet) : SafetyWatcher :=
  let s := if resp.state_code ≠ .testing then
      { s with min_voltage := none, min_current := none }
    else s
  if optFalsy s.min_voltage || optFalsy s.min_current then s
  else
    let s := { s with last_voltage := some resp.u, last_current := some resp.i }
    if optFalsy s.min_voltage || optFalsy s.min_current then
      { s with min_voltage := s.last_voltage, min_current := s.last_current }
    else
      { s with
        min_voltage := some (min (s.min_voltage.getD 0) (s.last_voltage.getD 0))
        min_current := some (min (s.min_current.getD 0) (s.last_current.getD 0)) }

/-- `SafetyWatcher.check_charging_current_increase` from `cmd_control.py`:
`none` models the bare `return` taken when `last_current` or `min_current` is
falsy; otherwise the comparison `last_current > min_current + 0.05`. -/
def SafetyWatcher.check_charging_current_increase (s : SafetyWatcher) : Option Bool :=
  if optFalsy s.last_current then none
  else if optFalsy s.min_current then none
  else some (decide (s.last_current.getD 0 > s.min_current.getD 0 + 5 / 100))

/-- `SafetyWatcher.check` from `cmd_control.py`: `True` exactly when
`check_charging_current_increase()` returned `True`. -/
def SafetyWatcher.check (s : SafetyWatcher) : Bool :=
  s.check_charging_current_increase == some true

/-- The outcome of a command-layer operation, cut at the transport boundary:
`noOp` is the logged early return on an unmet state precondition, `paramError`
a raised parameter error, and `sent rc p1 p2 p3` means the operation reached
`send_request(rc, p1, p2, p3)`. -/
inductive OpResult where
  | noOp
  | paramError
  | sent (rc : ReqCode) (p1 p2 p3 : Nat)
deriving Repr, DecidableEq

/-- The battery chemistries served by `_charge_generic` via the six
`charge_*` wrappers of `zketech.py`. -/
inductive ChargeKind where
  | nimh
  | nicd
  | liion
  | life
  | vrla
  | cv
deriving Repr, DecidableEq

/-- The request code each `charge_*` wrapper passes to `_charge_generic`. -/
def ChargeKind.reqCode : ChargeKind → ReqCode
  | .nimh => .start_c_nimh
  | .nicd => .start_c_nicd
  | .liion => .start_c_liion
  | .life => .start_c_life
  | .vrla => .start_c_vrla
  | .cv => .start_c_cv

/-- A command-layer operation of `zketech.py` together with its user-supplied
parameters (floats as `ℚ`, the calibration level as the raw string the method
receives). -/
inductive Command where
  | start_device
  | stop_device
  | stop_test
  | discharge_cc (current cutoff_voltage : ℚ) (max_duration : Int)
  | discharge_cp (power cutoff_voltage : ℚ) (max_duration : Int)
  | charge (kind : ChargeKind) (current : ℚ) (nb_cells : Int) (max_duration : Int)
  | measure_resistance (current : Int)
  | calibrate_voltage (voltage : ℚ) (level : String)
  | calibrate_current (current : ℚ) (level : String)
deriving Repr, DecidableEq

/-- Each command-layer method of `zketech.py` up to its transport call,
mirroring the source order of checks: the required-state check first (logged
no-op on failure), then the parameter checks (each a raised parameter error),
then the request-shape computation handed to `send_request`.  For
`measure_resistance` this covers the method up to `send_request`; the rest of
that method is `Zketech.measure_resistance` below. -/
def runCommand (c : Command) (st : DeviceState) (pg : Option ProgState) : OpResult :=
  match c with
  | .start_device =>
      if ¬(st = .idle) then .noOp
      else .sent .start_device 0 0 0
  | .stop_device =>
      if ¬(st = .monitoring) then .noOp
      else .sent .stop_device 0 0 0
  | .stop_test =>
      if ¬(st = .testing) then .noOp
      else .sent .stop_test 0 0 0
  | .discharge_cc current cutoff_voltage max_duration =>
      if ¬(st = .monitoring) then .noOp
      else if current < 0 then .paramError
      else if cutoff_voltage < 0 then .paramError
      else if max_duration < 0 then .paramError
      else if max_duration > 999 then .paramError
      else .sent .start_d_cc (pyInt (current * 1000)).toNat (pyInt (cutoff_voltage * 100)).toNat
        max_duration.toNat
  | .discharge_cp power cutoff_voltage max_duration =>
      if ¬(st = .monitoring) then .noOp
      else if power < 0 then .paramError
      else if cutoff_voltage < 0 then .paramError
      else if max_duration < 0 then .paramError
      else if max_duration > 999 then .paramError
      else .sent .start_d_cp (pyInt (power * 10)).toNat (pyInt (cutoff_voltage * 100)).toNat
        max_duration.toNat
  | .charge kind current nb_cells max_duration =>
      if ¬(st = .monitoring) then .noOp
      else if current < 0 then .paramError
      else if nb_cells < 1 then .paramError
      else if max_duration < 0 then .paramError
      else if max_duration > 999 then .paramError
      else .sent kind.reqCode (pyInt (current * 1000)).toNat nb_cells.toNat max_duration.toNat
  | .measure_resistance current =>
      if ¬(st = .monitoring) then .noOp
      else if current < 0 then .paramError
      else if current > 30000 then .paramError
      else .sent .mes_resistance current.toNat 0 0
  | .calibrate_voltage voltage level =>
      if ¬(st = .monitoring) then .noOp
      else if voltage < 0 then .paramError
      else if ¬(level = "lower" ∨ level = "upper") then .paramError
      else
        let p1 := (pyInt (voltage * 1000)).toNat / 240
        let p2 := (pyInt (voltage * 1000)).toNat % 240 * 240
        let p1 := if level = "lower" then p1 + 240 * 0 else p1
        let p1 := if level = "upper" then p1 + 240 * 1 else p1
        .sent .calibrate p1 p2 0
  | .calibrate_current current level =>
      if ¬(st = .testing ∧ pg = some .d_cc) then .noOp
      else if current < 0 then .paramError
      else if ¬(level = "lower" ∨ level = "upper") then .paramError
      else
        let p1 := (pyInt (current * 1000)).toNat / 240
        let p2 := (pyInt (current * 1000)).toNat % 240 * 240
        let p1 := if level = "lower" then p1 + 240 * 2 else p1
        let p1 := if level = "upper" then p1 + 240 * 3 else p1
        .sent .calibrate p1 p2 0

/-- The required prior session state of each operation, as checked by the
corresponding method of `zketech.py`. -/
def Command.stateOk (c : Command) (st : DeviceState) (pg : Option ProgState) : Bool :=
  match c with
  | .start_device => st = .idle
  | .stop_device => st = .monitoring
  | .stop_test => st = .testing
  | .discharge_cc _ _ _ => st = .monitoring
  | .discharge_cp _ _ _ => st = .monitoring
  | .charge _ _ _ _ => st = .monitoring
  | .measure_resistance _ => st = .monitoring
  | .calibrate_voltage _ _ => st = .monitoring
  | .calibrate_current _ _ => decide (st = .testing ∧ pg = some .d_cc)

/-- The out-of-range parameter conditions each operation rejects with a
parameter error (union of the raise conditions of the method). -/
def Command.badParams (c : Command) : Bool :=
  match c with
  | .start_device => false
  | .stop_device => false
  | .stop_test => false
  | .discharge_cc current cutoff_voltage max_duration =>
      current < 0 ∨ cutoff_voltage < 0 ∨ max_duration < 0 ∨ max_duration > 999
  | .discharge_cp power cutoff_voltage max_duration =>
      power < 0 ∨ cutoff_voltage < 0 ∨ max_duration < 0 ∨ max_duration > 999
  | .charge _ current nb_cells max_duration =>
      current < 0 ∨ nb_cells < 1 ∨ max_duration < 0 ∨ max_duration > 999
  | .measure_resistance current => current < 0 ∨ current > 30000
  | .calibrate_voltage voltage level =>
      voltage < 0 ∨ ¬(level = "lower" ∨ level = "upper")
  | .calibrate_current current level =>
      current < 0 ∨ ¬(level = "lower" ∨ level = "upper")

/-- The value `Zketech.measure_resistance` hands back to its caller:
`noOp`/`paramError` as in `OpResult`, `value none` for the logged
"no response" return, `value (some n)` for a measured resistance. -/
inductive MeasureResult where
  | noOp
  | paramError
  | value (r : Option Int)
deriving Repr, DecidableEq

/-- `Zketech.measure_resistance` from `zketech.py`, end to end: state check,
parameter checks, request send, input-buffer flush, one `read_response` on the
transport buffer `incoming`, then `int(res.c / (p1 / 1000))`.  A closed port
makes the post-send `reset_input_buffer()` raise (`.error .portClosed`);
`p1 = 0` makes the final float division raise `ZeroDivisionError`
(`.error .zeroDivision`). -/
def measure_resistance (s : ZkState) (isOpen : Bool) (current : Int)
    (incoming : List Nat) : Except PyError (ZkState × MeasureResult) :=
  if ¬(s.device_state = .monitoring) then .ok (s, .noOp)
  else if current < 0 then .ok (s, .paramError)
  else if current > 30000 then .ok (s, .paramError)
  else
    let p1 := current.toNat
    if ¬isOpen then .error .portClosed
    else
      match read_response isOpen incoming s with
      | .error e => .error e
      | .ok (s', none) => .ok (s', .value none)
      | .ok (s', some data) =>
          if p1 = 0 then .error .zeroDivision
          else .ok (s', .value (pyInt ((data.c : ℚ) / ((p1 : ℚ) / 1000))))

/-- Modelled from the spec: the calibration request parameters as section 4.3
of the specification words them, with `raw = round(value*1000)` — the spec's
`round` — in place of the code's truncating `int(value*1000)`.  Used to
compare the spec's formula with the code's. -/
def calibrate_params_spec (value : ℚ) (offset : Nat) : Nat × Nat × Nat :=
  let raw := (round (value * 1000)).toNat
  (raw / 240 + 240 * offset, raw % 240 * 240, 0)

/-- A telemetry sample as the safety watcher sees it: a response reporting
status `testing`, current `iv` amps, voltage 4 V. -/
def watcherSample (iv : ℚ) : ResponseDataSet :=
  { state_code := .testing
    prog_code := .d_cc
    i := iv
    u := 4
    c := 0
    unknown := 0
    p1 := 0
    p2 := 0
    p3 := 0
    part_number := .ebc_a05
    checksum := 0 }

lemma ReqCode.ofVal_val (rc : ReqCode) : ReqCode.ofVal rc.val = some rc := by
  cases rc <;> rfl

/-- What passing `check_buffer_validity` tells us about a 19-byte buffer:
markers, checksum equation, and that the three enum lookups succeed. -/
lemma check19_sound
    (b0 b1 b2 b3 b4 b5 b6 b7 b8 b9 b10 b11 b12 b13 b14 b15 b16 b17 b18 : Nat)
    (h : check_buffer_validity
      [b0, b1, b2, b3, b4, b5, b6, b7, b8, b9, b10, b11, b12, b13, b14, b15, b16, b17, b18] =
      true) :
    b0 = 250 ∧ b18 = 248 ∧
    b17 = zketech_checksum [b1, b2, b3, b4, b5, b6, b7, b8, b9, b10, b11, b12, b13, b14, b15,
      b16] ∧
    (StateCode.ofVal (b1 / 10)).isSome = true ∧
    (ProgCode.ofVal (b1 % 10)).isSome = true ∧
    (PartNumber.ofVal b16).isSome = true := by
  simp only [check_buffer_validity, BEGIN_MARKER, END_MARKER] at h
  simp [List.get?] at h
  obtain ⟨⟨⟨h0, h18⟩, h17⟩, ⟨hsc, hpc⟩, hpn⟩ := h
  exact ⟨h0, h18, h17, hsc, hpc, hpn⟩

/-- Decoding a 19-byte buffer that passed validation: the enum lookups succeed
and `get_response_data_set` returns the joined and scaled fields. -/
lemma decode19_fields
    (b0 b1 b2 b3 b4 b5 b6 b7 b8 b9 b10 b11 b12 b13 b14 b15 b16 b17 b18 : Nat)
    (h : check_buffer_validity
      [b0, b1, b2, b3, b4, b5, b6, b7, b8, b9, b10, b11, b12, b13, b14, b15, b16, b17, b18] =
      true) :
    ∃ sc pc pn,
      StateCode.ofVal (b1 / 10) = some sc ∧
      ProgCode.ofVal (b1 % 10) = some pc ∧
      PartNumber.ofVal b16 = some pn ∧
      ResponseFrame.get_response_data_set
        [b0, b1, b2, b3, b4, b5, b6, b7, b8, b9, b10, b11, b12, b13, b14, b15, b16, b17, b18] =
        some
          { state_code := sc
            prog_code := pc
            i := ((b2 * 240 + b3 : Nat) : ℚ) / 1000
            u := ((b4 * 240 + b5 : Nat) : ℚ) / 1000
            c := b6 * 240 + b7
            unknown := b8 * 240 + b9
            p1 := b10 * 240 + b11
            p2 := b12 * 240 + b13
            p3 := b14 * 240 + b15
            part_number := pn
            checksum := b17 } := by
  obtain ⟨-, -, -, hsc, hpc, hpn⟩ := check19_sound _ _ _ _ _ _ _ _ _ _ _ _ _ _ _ _ _ _ _ h
  obtain ⟨sc, hsc⟩ := Option.isSome_iff_exists.mp hsc
  obtain ⟨pc, hpc⟩ := Option.isSome_iff_exists.mp hpc
  obtain ⟨pn, hpn⟩ := Option.isSome_iff_exists.mp hpn
  refine ⟨sc, pc, pn, hsc, hpc, hpn, ?_⟩
  simp [ResponseFrame.get_response_data_set, h, ResponseDataSet.ofValues, hsc, hpc, hpn]

/-- A successful resistance measurement: in the monitoring state, with a
positive in-range current and a structurally valid 19-byte response in the
transport buffer, `measure_resistance` returns the truncated quotient
capacity/(current/1000). -/
lemma measure_resistance_ok (s : ZkState) (hs : s.device_state = .monitoring)
    (current : Int) (h1 : 1 ≤ current) (h2 : current ≤ 30000)
    (b0 b1 b2 b3 b4 b5 b6 b7 b8 b9 b10 b11 b12 b13 b14 b15 b16 b17 b18 : Nat)
    (hchk : check_buffer_validity
      [b0, b1, b2, b3, b4, b5, b6, b7, b8, b9, b10, b11, b12, b13, b14, b15, b16, b17, b18] =
      true) :
    (measure_resistance s true current
        [b0, b1, b2, b3, b4, b5, b6, b7, b8, b9, b10, b11, b12, b13, b14, b15, b16, b17,
          b18]).map (fun r => r.2) =
      .ok (.value (some ⌊((b6 * 240 + b7 : Nat) : ℚ) * 1000 / (current : ℚ)⌋)) := by
  have hlt : ¬current < 0 := by omega
  have hgt : ¬current > 30000 := by omega
  obtain ⟨sc, pc, pn, hsc, hpc, hpn, hdec⟩ :=
    decode19_fields _ _ _ _ _ _ _ _ _ _ _ _ _ _ _ _ _ _ _ hchk
  have hp1 : ¬current.toNat = 0 := by omega
  have hcur : ((current.toNat : Nat) : ℚ) = (current : ℚ) := by
    have := Int.toNat_of_nonneg (show (0 : Int) ≤ current by omega)
    exact_mod_cast congrArg (fun z : Int => (z : ℚ)) this
  simp [measure_resistance, read_response, hs, hlt, hgt, hp1, hchk, hdec, Except.map,
    hcur, pyInt]
  rw [div_div_eq_mul_div]
  have hc0 : (0 : ℚ) ≤ (current : ℚ) := by exact_mod_cast (by omega : (0 : Int) ≤ current)
  rw [if_pos (div_nonneg (by positivity) hc0)]

lemma foldl_xor_shift (a : Nat) (l : List Nat) :
    l.foldl (fun x y => x ^^^ y) a = a ^^^ l.foldl (fun x y => x ^^^ y) 0 := by
  induction l generalizing a with
  | nil => simp
  | cons h t ih =>
      simp only [List.foldl_cons]
      rw [ih (a ^^^ h), ih (0 ^^^ h), Nat.zero_xor, Nat.xor_assoc]

/-- The xor fold over a list with one distinguished element:
that element can be pulled out of the fold. -/
lemma foldl_xor_middle (pre post : List Nat) (x : Nat) :
    (pre ++ x :: post).foldl (fun a b => a ^^^ b) 0 =
      (pre ++ post).foldl (fun a b => a ^^^ b) 0 ^^^ x := by
  rw [List.foldl_append, List.foldl_append, List.foldl_cons]
  rw [foldl_xor_shift (List.foldl (fun a b => a ^^^ b) 0 pre ^^^ x) post,
    foldl_xor_shift (List.foldl (fun a b => a ^^^ b) 0 pre) post]
  rw [Nat.xor_assoc, Nat.xor_comm x, ← Nat.xor_assoc]

lemma xor_lt_256 {a b : Nat} (ha : a < 256) (hb : b < 256) : a ^^^ b < 256 := by
  have h8 : a ^^^ b < 2 ^ 8 :=
    Nat.bitwise_lt (by norm_num at ha ⊢; exact ha) (by norm_num at hb ⊢; exact hb)
  norm_num at h8
  exact h8

lemma foldl_xor_lt (l : List Nat) (hl : ∀ x ∈ l, x < 256) :
    l.foldl (fun a b => a ^^^ b) 0 < 256 := by
  induction l with
  | nil => norm_num
  | cons h t ih =>
      rw [List.foldl_cons, foldl_xor_shift]
      exact xor_lt_256 (xor_lt_256 (by norm_num) (hl h (by simp)))
        (ih fun x hx => hl x (by simp [hx]))

/-- The checksum is an xor reduced mod 240: two distinct bytes below 256 with
the same residue mod 240 differ exactly by the xor mask 240. -/
lemma mod240_collision {x y : Nat} (hx : x < 256) (hy : y < 256)
    (hmod : x % 240 = y % 240) (hne : x ≠ y) : x ^^^ y = 240 := by
  have small : ∀ z, z < 16 → z ^^^ (z + 240) = 240 := by decide
  have key : (y = x + 240 ∧ x < 16) ∨ (x = y + 240 ∧ y < 16) := by omega
  rcases key with ⟨rfl, h⟩ | ⟨rfl, h⟩
  · exact small x h
  · rw [Nat.xor_comm]
    exact small y h

lemma frame_get_last (mid : List Nat) (c e : Nat) :
    (250 :: mid ++ [c, e]).get? (mid.length + 2) = some e := by
  show ((250 :: mid) ++ [c, e]).get? (mid.length + 2) = some e
  rw [List.get?_append_right (by simp)]
  simp

lemma frame_get_checksum (mid : List Nat) (c e : Nat) :
    (250 :: mid ++ [c, e]).get? (mid.length + 1) = some c := by
  show ((250 :: mid) ++ [c, e]).get? (mid.length + 1) = some c
  rw [List.get?_append_right (by simp)]
  simp

lemma frame_payload (mid : List Nat) (c e : Nat) :
    ((250 :: mid ++ [c, e]).drop 1).take mid.length = mid := by
  show (mid ++ [c, e]).take mid.length = mid
  exact List.take_left mid [c, e]

/-- What a passed validity check says about a marker-delimited frame
`250 :: mid ++ [c, 248]`: the length is 10 or 19 and the checksum byte equals
the checksum of the payload `mid`. -/
lemma frame_check_ok (mid : List Nat) (c : Nat)
    (h : check_buffer_validity (250 :: mid ++ [c, 248]) = true) :
    (mid.length + 3 = 10 ∨ mid.length + 3 = 19) ∧ c = zketech_checksum mid := by
  have hL : (250 :: mid ++ [c, 248]).length = mid.length + 3 := by simp
  have e2 : mid.length + 3 - 2 = mid.length + 1 := by omega
  have e3 : mid.length + 3 - 3 = mid.length := by omega
  simp only [check_buffer_validity, Bool.and_eq_true, decide_eq_true_eq, beq_iff_eq] at h
  obtain ⟨⟨⟨⟨⟨hlen, h0⟩, hend⟩, hcs⟩, -⟩, -⟩ := h
  rw [hL] at hlen hcs
  rw [e2, e3, frame_get_checksum, frame_payload] at hcs
  exact ⟨hlen, Option.some_inj.mp hcs⟩

/-- A marker-delimited frame of valid length whose checksum byte does not
match its payload fails validation, and the first failing check — hence the
reported reason — is the checksum comparison. -/
lemma frame_checksum_mismatch (mid : List Nat) (c : Nat)
    (hlen : mid.length + 3 = 10 ∨ mid.length + 3 = 19)
    (hcs : c ≠ zketech_checksum mid) :
    buffer_check_error (250 :: mid ++ [c, 248]) = some .checksum ∧
    check_buffer_validity (250 :: mid ++ [c, 248]) = false := by
  have hL : (250 :: mid ++ [c, 248]).length = mid.length + 3 := by simp
  have e1 : mid.length + 3 - 1 = mid.length + 2 := by omega
  have e2 : mid.length + 3 - 2 = mid.length + 1 := by omega
  have e3 : mid.length + 3 - 3 = mid.length := by omega
  constructor
  · simp only [buffer_check_error, hL, e1, e2, e3, List.get?_cons_zero, frame_get_last,
      frame_get_checksum, frame_payload, BEGIN_MARKER, END_MARKER]
    rw [if_neg (not_not_intro hlen), if_neg (by simp), if_neg (by simp),
      if_pos (by simpa using hcs)]
  · simp only [check_buffer_validity, hL, e1, e2, e3, List.get?_cons_zero, frame_get_last,
      frame_get_checksum, frame_payload, BEGIN_MARKER, END_MARKER]
    simp [hcs]

/-- C4: for every request descriptor whose three parameters lie in
[0, 57600], encode lays out exactly the ten bytes
`[250, code, p1 div 240, p1 mod 240, p2 div 240, p2 mod 240, p3 div 240,
p3 mod 240, checksum, 248]` with the checksum the xor of the command-code byte
and the six parameter bytes reduced modulo 240; the defensive re-verification
passes, so encode never fails (and every laid-out value fits in a byte, so the
byte packing cannot fail either). -/
theorem C4_encode_layout (rc : ReqCode) (p1 p2 p3 : Nat)
    (h1 : p1 ≤ 57600) (h2 : p2 ≤ 57600) (h3 : p3 ≤ 57600) :
    (RequestDataSet.mk? rc p1 p2 p3).map RequestFrame.get_buffer =
      some [250, rc.val, p1 / 240, p1 % 240, p2 / 240, p2 % 240, p3 / 240, p3 % 240,
        zketech_checksum [rc.val, p1 / 240, p1 % 240, p2 / 240, p2 % 240, p3 / 240, p3 % 240],
        248] ∧
    check_buffer_validity
      [250, rc.val, p1 / 240, p1 % 240, p2 / 240, p2 % 240, p3 / 240, p3 % 240,
        zketech_checksum [rc.val, p1 / 240, p1 % 240, p2 / 240, p2 % 240, p3 / 240, p3 % 240],
        248] = true ∧
    ([250, rc.val, p1 / 240, p1 % 240, p2 / 240, p2 % 240, p3 / 240, p3 % 240,
        zketech_checksum [rc.val, p1 / 240, p1 % 240, p2 / 240, p2 % 240, p3 / 240, p3 % 240],
        248].all fun x => decide (x < 256)) = true := by
  have hcheck : check_buffer_validity
      [250, rc.val, p1 / 240, p1 % 240, p2 / 240, p2 % 240, p3 / 240, p3 % 240,
        zketech_checksum [rc.val, p1 / 240, p1 % 240, p2 / 240, p2 % 240, p3 / 240, p3 % 240],
        248] = true := by
    simp [check_buffer_validity, List.get?, BEGIN_MARKER, END_MARKER, ReqCode.ofVal_val]
  refine ⟨?_, hcheck, ?_⟩
  · simp only [RequestDataSet.mk?, if_neg (show ¬(p1 > 57600 ∨ p2 > 57600 ∨ p3 > 57600) by
      omega)]
    simpa [RequestFrame.get_buffer, BEGIN_MARKER, END_MARKER] using hcheck
  · have hv : rc.val < 256 := by cases rc <;> decide
    have hcs : zketech_checksum
        [rc.val, p1 / 240, p1 % 240, p2 / 240, p2 % 240, p3 / 240, p3 % 240] < 240 :=
      Nat.mod_lt _ (by norm_num)
    simp only [List.all_cons, List.all_nil, Bool.and_eq_true, decide_eq_true_eq]
    exact ⟨by norm_num, hv, by omega, by omega, by omega, by omega, by omega, by omega,
      by omega, by norm_num, trivial⟩

/-- C4 witness: the theorem applied to `start_d_cc` with parameters
(1000, 350, 0). -/
theorem C4_encode_layout_witness :
    (RequestDataSet.mk? .start_d_cc 1000 350 0).map RequestFrame.get_buffer =
      some [250, 1, 4, 40, 1, 110, 0, 0, 66, 248] ∧
    check_buffer_validity [250, 1, 4, 40, 1, 110, 0, 0, 66, 248] = true ∧
    ([250, 1, 4, 40, 1, 110, 0, 0, 66, 248].all fun x => decide (x < 256)) = true := by
  have h := C4_encode_layout .start_d_cc 1000 350 0 (by norm_num) (by norm_num) (by norm_num)
  exact ⟨h.1, h.2.1, h.2.2⟩

/-- C1: the safety monitor as implemented never reports an anomaly.  Fed the
armed sample sequence 1.00 A, 1.00 A, 1.06 A, `check` answers false after each
update — including the third, where the claim (and the spec) require an
anomaly — and the watcher state is still the empty initial state: the early
return on unset minima precedes the seeding assignment, which is unreachable. -/
theorem C1_safety_watcher_never_fires :
    (SafetyWatcher.update {} (watcherSample 1)).check = false ∧
    (SafetyWatcher.update (SafetyWatcher.update {} (watcherSample 1))
      (watcherSample 1)).check = false ∧
    (SafetyWatcher.update (SafetyWatcher.update (SafetyWatcher.update {} (watcherSample 1))
      (watcherSample 1)) (watcherSample (53 / 50))).check = false ∧
    SafetyWatcher.update (SafetyWatcher.update (SafetyWatcher.update {} (watcherSample 1))
      (watcherSample 1)) (watcherSample (53 / 50)) = ({} : SafetyWatcher) := by
  decide

/-- C5 counterexample: the valid request frame [250, 2, 0, 0, 0, 0, 0, 0, 2, 248]
with the payload byte at index 2 replaced by the different value 240 still
decodes successfully — the xor-mod-240 checksum cannot see the change — so not
every single-payload-byte replacement fails with a checksum mismatch. -/
theorem C5_counterexample :
    check_buffer_validity [250, 2, 0, 0, 0, 0, 0, 0, 2, 248] = true ∧
    check_buffer_validity [250, 2, 240, 0, 0, 0, 0, 0, 2, 248] = true ∧
    buffer_check_error [250, 2, 240, 0, 0, 0, 0, 0, 2, 248] = none ∧
    (240 : Nat) ≠ 0 :=
  ⟨by decide, by decide, by decide, by decide⟩

/-- C5 amended: for every successfully decoding buffer
`250 :: (pre ++ b :: post) ++ [c, 248]` (bytes below 256), replacing the
payload byte `b` by any different byte `v` OTHER THAN `b` xor 240 makes
validation fail, and the first failing check is the checksum comparison;
replacing it by `b` xor 240 can preserve the checksum (see the
counterexample), because the checksum is an xor reduced modulo 240. -/
theorem C5_payload_flip (pre post : List Nat) (b v c : Nat)
    (hbytes : ∀ x ∈ pre ++ b :: post, x < 256) (hv : v < 256)
    (hne : v ≠ b) (hxor : v ≠ b ^^^ 240)
    (hchk : check_buffer_validity (250 :: (pre ++ b :: post) ++ [c, 248]) = true) :
    buffer_check_error (250 :: (pre ++ v :: post) ++ [c, 248]) = some .checksum ∧
    check_buffer_validity (250 :: (pre ++ v :: post) ++ [c, 248]) = false := by
  obtain ⟨hlenB, hcB⟩ := frame_check_ok (pre ++ b :: post) c hchk
  have hlenV : (pre ++ v :: post).length = (pre ++ b :: post).length := by simp
  have hmm : c ≠ zketech_checksum (pre ++ v :: post) := by
    intro hceq
    have heq : ((pre ++ v :: post).foldl (fun a b => a ^^^ b) 0) % 240 =
        ((pre ++ b :: post).foldl (fun a b => a ^^^ b) 0) % 240 := by
      have h1 : zketech_checksum (pre ++ v :: post) = zketech_checksum (pre ++ b :: post) := by
        rw [← hceq, hcB]
      simpa [zketech_checksum] using h1
    rw [foldl_xor_middle, foldl_xor_middle] at heq
    have hblt : b < 256 := hbytes b (by simp)
    have hRlt : (pre ++ post).foldl (fun a b => a ^^^ b) 0 < 256 := by
      apply foldl_xor_lt
      intro x hx
      apply hbytes
      rcases List.mem_append.mp hx with h | h
      · exact List.mem_append.mpr (Or.inl h)
      · exact List.mem_append.mpr (Or.inr (List.mem_cons_of_mem _ h))
    have hneq : (pre ++ post).foldl (fun a b => a ^^^ b) 0 ^^^ v ≠
        (pre ++ post).foldl (fun a b => a ^^^ b) 0 ^^^ b :=
      fun hh => hne (Nat.xor_right_inj.mp hh)
    have hcol := mod240_collision (xor_lt_256 hRlt hv) (xor_lt_256 hRlt hblt) heq hneq
    rw [Nat.xor_comm _ v, Nat.xor_assoc, Nat.xor_cancel_left] at hcol
    apply hxor
    calc v = v ^^^ b ^^^ b := (Nat.xor_cancel_right b v).symm
      _ = 240 ^^^ b := by rw [hcol]
      _ = b ^^^ 240 := Nat.xor_comm _ _
  have hlen' : (pre ++ v :: post).length + 3 = 10 ∨ (pre ++ v :: post).length + 3 = 19 := by
    rw [hlenV]
    exact hlenB
  exact frame_checksum_mismatch (pre ++ v :: post) c hlen' hmm

/-- C5 witness: the amended theorem applied to the valid request frame
[250, 2, 0, 0, 0, 0, 0, 0, 2, 248], replacing the payload byte at index 2
(value 0) by 7. -/
theorem C5_payload_flip_witness :
    buffer_check_error [250, 2, 7, 0, 0, 0, 0, 0, 2, 248] = some .checksum ∧
    check_buffer_validity [250, 2, 7, 0, 0, 0, 0, 0, 2, 248] = false :=
  C5_payload_flip [2] [0, 0, 0, 0, 0] 0 7 2 (by decide) (by decide) (by decide) (by decide)
    (by decide)

/-- C6: on every structurally valid 19-byte response frame, decode joins and
scales the fields as claimed: current and voltage are `(hi*240+lo)/1000`,
capacity and the unknown field are `hi*240+lo` with no scale, and each echoed
parameter is `hi*240+lo`. -/
theorem C6_response_scaling
    (b0 b1 b2 b3 b4 b5 b6 b7 b8 b9 b10 b11 b12 b13 b14 b15 b16 b17 b18 : Nat)
    (h : check_buffer_validity
      [b0, b1, b2, b3, b4, b5, b6, b7, b8, b9, b10, b11, b12, b13, b14, b15, b16, b17, b18] =
      true) :
    ((ResponseFrame.get_response_data_set
        [b0, b1, b2, b3, b4, b5, b6, b7, b8, b9, b10, b11, b12, b13, b14, b15, b16, b17,
          b18]).map ResponseDataSet.i = some (((b2 * 240 + b3 : Nat) : ℚ) / 1000)) ∧
    ((ResponseFrame.get_response_data_set
        [b0, b1, b2, b3, b4, b5, b6, b7, b8, b9, b10, b11, b12, b13, b14, b15, b16, b17,
          b18]).map ResponseDataSet.u = some (((b4 * 240 + b5 : Nat) : ℚ) / 1000)) ∧
    ((ResponseFrame.get_response_data_set
        [b0, b1, b2, b3, b4, b5, b6, b7, b8, b9, b10, b11, b12, b13, b14, b15, b16, b17,
          b18]).map ResponseDataSet.c = some (b6 * 240 + b7)) ∧
    ((ResponseFrame.get_response_data_set
        [b0, b1, b2, b3, b4, b5, b6, b7, b8, b9, b10, b11, b12, b13, b14, b15, b16, b17,
          b18]).map ResponseDataSet.unknown = some (b8 * 240 + b9)) ∧
    ((ResponseFrame.get_response_data_set
        [b0, b1, b2, b3, b4, b5, b6, b7, b8, b9, b10, b11, b12, b13, b14, b15, b16, b17,
          b18]).map ResponseDataSet.p1 = some (b10 * 240 + b11)) ∧
    ((ResponseFrame.get_response_data_set
        [b0, b1, b2, b3, b4, b5, b6, b7, b8, b9, b10, b11, b12, b13, b14, b15, b16, b17,
          b18]).map ResponseDataSet.p2 = some (b12 * 240 + b13)) ∧
    ((ResponseFrame.get_response_data_set
        [b0, b1, b2, b3, b4, b5, b6, b7, b8, b9, b10, b11, b12, b13, b14, b15, b16, b17,
          b18]).map ResponseDataSet.p3 = some (b14 * 240 + b15)) := by
  obtain ⟨sc, pc, pn, -, -, -, hdec⟩ :=
    decode19_fields _ _ _ _ _ _ _ _ _ _ _ _ _ _ _ _ _ _ _ h
  simp [hdec]

/-- C6 witness: the theorem applied to a fixture built from current 0.100 A
(raw parts 0,100), voltage 1.000 V (parts 4,40), capacity 500 mAh
(parts 2,20), reporting status testing, program d_cp, part number ebc_a05. -/
theorem C6_response_scaling_witness :
    ((ResponseFrame.get_response_data_set
        [250, 11, 0, 100, 4, 40, 2, 20, 0, 0, 0, 0, 0, 0, 0, 0, 5, 80, 248]).map
        ResponseDataSet.i = some (1 / 10 : ℚ)) ∧
    ((ResponseFrame.get_response_data_set
        [250, 11, 0, 100, 4, 40, 2, 20, 0, 0, 0, 0, 0, 0, 0, 0, 5, 80, 248]).map
        ResponseDataSet.u = some (1 : ℚ)) ∧
    ((ResponseFrame.get_response_data_set
        [250, 11, 0, 100, 4, 40, 2, 20, 0, 0, 0, 0, 0, 0, 0, 0, 5, 80, 248]).map
        ResponseDataSet.c = some 500) ∧
    ((ResponseFrame.get_response_data_set
        [250, 11, 0, 100, 4, 40, 2, 20, 0, 0, 0, 0, 0, 0, 0, 0, 5, 80, 248]).map
        ResponseDataSet.p3 = some 0) := by
  have h := C6_response_scaling 250 11 0 100 4 40 2 20 0 0 0 0 0 0 0 0 5 80 248 (by decide)
  refine ⟨?_, ?_, ?_, ?_⟩
  · have := h.1
    norm_num at this ⊢
    exact this
  · have := h.2.1
    norm_num at this ⊢
    exact this
  · have := h.2.2.1
    norm_num at this ⊢
    exact this
  · have := h.2.2.2.2.2.2
    norm_num at this ⊢
    exact this

/-- C7: with the transport open, a zero-byte read sets the session state to
idle, and a read of a structurally valid 19-byte response whose status part is
testing sets the session state to testing, whatever the prior non-disconnected
session state was. -/
theorem C7_state_machine (s : ZkState) (_hs : s.device_state ≠ .disconnected) :
    (read_response true [] s =
      .ok ({ s with device_state := .idle, part_number := none }, none)) ∧
    (∀ b0 b1 b2 b3 b4 b5 b6 b7 b8 b9 b10 b11 b12 b13 b14 b15 b16 b17 b18 : Nat,
      check_buffer_validity
        [b0, b1, b2, b3, b4, b5, b6, b7, b8, b9, b10, b11, b12, b13, b14, b15, b16, b17,
          b18] = true →
      b1 / 10 = 1 →
      (read_response true
          [b0, b1, b2, b3, b4, b5, b6, b7, b8, b9, b10, b11, b12, b13, b14, b15, b16, b17,
            b18] s).map (fun r => r.1.device_state) = .ok .testing) := by
  constructor
  · simp [read_response]
  · intro b0 b1 b2 b3 b4 b5 b6 b7 b8 b9 b10 b11 b12 b13 b14 b15 b16 b17 b18 hchk hb1
    obtain ⟨sc, pc, pn, hsc, hpc, hpn, hdec⟩ :=
      decode19_fields _ _ _ _ _ _ _ _ _ _ _ _ _ _ _ _ _ _ _ hchk
    rw [hb1] at hsc
    have hsct : sc = .testing := by simpa [StateCode.ofVal] using hsc.symm
    subst hsct
    simp [read_response, hchk, hdec, Except.map]

/-- C7 witness: the theorem applied to the monitoring state, with the empty
read and with a valid testing-status response fixture. -/
theorem C7_state_machine_witness :
    (read_response true [] ⟨.monitoring, none, none⟩ =
      .ok (⟨.idle, none, none⟩, none)) ∧
    ((read_response true [250, 11, 0, 100, 4, 40, 2, 20, 0, 0, 0, 0, 0, 0, 0, 0, 5, 80, 248]
        ⟨.monitoring, none, none⟩).map (fun r => r.1.device_state) = .ok .testing) := by
  have h := C7_state_machine ⟨.monitoring, none, none⟩ (by decide)
  exact ⟨h.1, h.2 250 11 0 100 4 40 2 20 0 0 0 0 0 0 0 0 5 80 248 (by decide) (by decide)⟩

/-- C3 counterexample: a read of a non-empty, non-decoding buffer does not
leave the whole session state unchanged — the last-known device model
identifier is cleared (the code nulls `part_number` at the start of every
read attempt). -/
theorem C3_counterexample :
    read_response true [1, 2, 3] ⟨.testing, some .d_cc, some .ebc_a05⟩ =
      .ok (⟨.testing, some .d_cc, none⟩, none) ∧
    (⟨.testing, some .d_cc, none⟩ : ZkState).part_number ≠
      (⟨.testing, some .d_cc, some .ebc_a05⟩ : ZkState).part_number :=
  ⟨rfl, by decide⟩

/-- C3 amended: on an open transport, a read of a non-empty buffer that fails
codec validation leaves the session state field and the last-known active
program unchanged, raises nothing, and reports no data ("invalid frame"); the
last-known device model identifier however is cleared to none, as it is at the
start of every read attempt. -/
theorem C3_invalid_frame_keeps_state (s : ZkState) (incoming : List Nat)
    (hne : incoming ≠ []) (hbad : check_buffer_validity incoming = false) :
    read_response true incoming s = .ok ({ s with part_number := none }, none) := by
  simp [read_response, hne, hbad]

/-- C3 witness: the amended theorem applied to a concrete invalid buffer. -/
theorem C3_invalid_frame_keeps_state_witness :
    read_response true [9, 9] ⟨.monitoring, none, some .ebc_a⟩ =
      .ok (⟨.monitoring, none, none⟩, none) :=
  C3_invalid_frame_keeps_state ⟨.monitoring, none, some .ebc_a⟩ [9, 9] (by decide) (by decide)

/-- C2 counterexample: `discharge_cc` invoked with a negative current while
the session state is idle does not surface a parameter error — the unmet
state precondition makes the call a logged no-op before any parameter is
looked at. -/
theorem C2_counterexample :
    runCommand (.discharge_cc (-1) 2 0) .idle none = .noOp ∧
    OpResult.noOp ≠ OpResult.paramError :=
  ⟨by decide, by decide⟩

/-- C2 amended: in every command-layer operation the required-prior-state
check runs first — when it fails the operation is a no-op (logged, nothing
raised) whatever the parameters — and only when it holds do out-of-range
parameters surface a parameter error, before the transport is touched. -/
theorem C2_state_check_first (c : Command) (st : DeviceState) (pg : Option ProgState) :
    (c.stateOk st pg = false → runCommand c st pg = .noOp) ∧
    (c.stateOk st pg = true → c.badParams = true → runCommand c st pg = .paramError) := by
  refine ⟨fun hst => ?_, fun hst hbad => ?_⟩
  · cases c <;>
      simp only [Command.stateOk, decide_eq_false_iff_not] at hst <;>
      simp only [runCommand] <;>
      rw [if_pos hst]
  · cases c <;>
      simp only [Command.stateOk, Command.badParams, decide_eq_true_eq] at hst hbad
    case start_device => exact absurd hbad (by decide)
    case stop_device => exact absurd hbad (by decide)
    case stop_test => exact absurd hbad (by decide)
    case discharge_cc a b d =>
      simp only [runCommand]
      rw [if_neg (by simp [hst])]
      split_ifs <;> first | rfl | tauto
    case discharge_cp a b d =>
      simp only [runCommand]
      rw [if_neg (by simp [hst])]
      split_ifs <;> first | rfl | tauto
    case charge k a n d =>
      simp only [runCommand]
      rw [if_neg (by simp [hst])]
      split_ifs <;> first | rfl | tauto
    case measure_resistance a =>
      simp only [runCommand]
      rw [if_neg (by simp [hst])]
      split_ifs <;> first | rfl | tauto
    case calibrate_voltage a l =>
      simp only [runCommand]
      rw [if_neg (by simp [hst])]
      split_ifs <;> first | rfl | tauto
    case calibrate_current a l =>
      simp only [runCommand]
      rw [if_neg (by simp [hst.1, hst.2])]
      split_ifs <;> first | rfl | tauto

/-- C2 witness: the amended theorem applied twice to `discharge_cc` with a
negative current — in state idle (no-op) and in state monitoring (parameter
error). -/
theorem C2_state_check_first_witness :
    runCommand (.discharge_cc (-1) 2 0) .idle none = .noOp ∧
    runCommand (.discharge_cc (-1) 2 0) .monitoring none = .paramError :=
  ⟨(C2_state_check_first (.discharge_cc (-1) 2 0) .idle none).1 (by decide),
   (C2_state_check_first (.discharge_cc (-1) 2 0) .monitoring none).2 (by decide) (by decide)⟩

/-- C8 counterexample: at voltage 1/625 V (so v*1000 = 1.6), the code's
truncating `int(v*1000)` yields raw = 1 and p2 = 240, while the claim's
`raw = round(v*1000)` yields raw = 2 and p2 = 480. -/
theorem C8_counterexample :
    runCommand (.calibrate_voltage (1 / 625) "lower") .monitoring none =
      .sent .calibrate 0 240 0 ∧
    calibrate_params_spec (1 / 625) 0 = (0, 480, 0) ∧
    (240 : Nat) ≠ 480 := by
  have hfl : (⌊(1 / 625 : ℚ) * 1000⌋ : Int) = 1 := by norm_num [Int.floor_eq_iff]
  have hrd : round ((1 / 625 : ℚ) * 1000) = 2 := by
    rw [round_eq]
    norm_num [Int.floor_eq_iff]
  refine ⟨?_, ?_, by norm_num⟩
  · have hpy : pyInt ((1 / 625 : ℚ) * 1000) = 1 := by
      rw [pyInt, if_pos (by norm_num), hfl]
    simp only [runCommand]
    rw [if_neg (show ¬¬True by simp)]
    rw [if_neg (show ¬(1 / 625 : ℚ) < 0 by norm_num)]
    rw [if_neg (show ¬¬(True ∨ ("lower" : String) = "upper") by simp)]
    rw [if_neg (show ¬("lower" : String) = "upper" by decide)]
    rw [if_pos (show True from trivial)]
    rw [hpy]
    norm_num
  · simp only [calibrate_params_spec]
    rw [hrd]
    decide

/-- C8 amended: the calibration operations compute raw as the truncation
`int(v*1000)` (the floor, for v ≥ 0) — not `round(v*1000)` — and then
p1 = raw div 240 + 240*offset, p2 = (raw mod 240)*240, p3 = 0, with offset
0 for voltage/lower, 1 for voltage/upper, 2 for current/lower, 3 for
current/upper. -/
theorem C8_calibration_params (v : ℚ) (hv : 0 ≤ v) (pg : Option ProgState) :
    runCommand (.calibrate_voltage v "lower") .monitoring pg =
      .sent .calibrate ((⌊v * 1000⌋).toNat / 240) ((⌊v * 1000⌋).toNat % 240 * 240) 0 ∧
    runCommand (.calibrate_voltage v "upper") .monitoring pg =
      .sent .calibrate ((⌊v * 1000⌋).toNat / 240 + 240) ((⌊v * 1000⌋).toNat % 240 * 240) 0 ∧
    runCommand (.calibrate_current v "lower") .testing (some .d_cc) =
      .sent .calibrate ((⌊v * 1000⌋).toNat / 240 + 480) ((⌊v * 1000⌋).toNat % 240 * 240) 0 ∧
    runCommand (.calibrate_current v "upper") .testing (some .d_cc) =
      .sent .calibrate ((⌊v * 1000⌋).toNat / 240 + 720) ((⌊v * 1000⌋).toNat % 240 * 240) 0 := by
  have hnn : ¬v < 0 := not_lt.mpr hv
  have hpy : pyInt (v * 1000) = ⌊v * 1000⌋ := by
    rw [pyInt, if_pos (by positivity)]
  have hul : ("upper" : String) ≠ "lower" := by decide
  have hlu : ("lower" : String) ≠ "upper" := by decide
  refine ⟨?_, ?_, ?_, ?_⟩ <;> simp [runCommand, hnn, hpy, hul, hlu]

/-- C8 witness: the amended theorem at voltage 1.0 V: raw = 1000, p1 = 4,
p2 = 40*240 = 9600, matching the worked example. -/
theorem C8_calibration_params_witness :
    runCommand (.calibrate_voltage 1 "lower") .monitoring none =
      .sent .calibrate 4 9600 0 := by
  have h := (C8_calibration_params 1 (by norm_num) none).1
  norm_num at h
  exact h

/-- C10: `measure_resistance` crashes on an in-range input: current = 0
passes the parameter checks (0 ≤ 0 ≤ 30000) and, once a valid response is
read, the resistance computation divides by current/1000 = 0, raising an
unguarded division-by-zero error instead of returning or reporting a
failure. -/
theorem C10_div_by_zero_crash :
    measure_resistance ⟨.monitoring, none, none⟩ true 0
      [250, 1, 0, 0, 0, 0, 2, 20, 0, 0, 0, 0, 0, 0, 0, 0, 5, 18, 248] =
      .error .zeroDivision := by
  have hchk : check_buffer_validity
      [250, 1, 0, 0, 0, 0, 2, 20, 0, 0, 0, 0, 0, 0, 0, 0, 5, 18, 248] = true := by decide
  obtain ⟨sc, pc, pn, hsc, hpc, hpn, hdec⟩ :=
    decode19_fields _ _ _ _ _ _ _ _ _ _ _ _ _ _ _ _ _ _ _ hchk
  simp [measure_resistance, read_response, hchk, hdec]

/-- C9 counterexample: at current 3000 mA with echoed capacity 500 the
operation returns the truncated 166, not the exact value
capacity/(current/1000) = 500/3 that the claim states. -/
theorem C9_counterexample :
    (measure_resistance ⟨.monitoring, none, none⟩ true 3000
        [250, 1, 0, 0, 0, 0, 2, 20, 0, 0, 0, 0, 0, 0, 0, 0, 5, 18, 248]).map (fun r => r.2) =
      .ok (.value (some 166)) ∧
    (166 : ℚ) ≠ (500 : ℚ) / ((3000 : ℚ) / 1000) := by
  constructor
  · have h := measure_resistance_ok ⟨.monitoring, none, none⟩ rfl 3000 (by norm_num)
      (by norm_num) 250 1 0 0 0 0 2 20 0 0 0 0 0 0 0 0 5 18 248 (by decide)
    rw [h]
    norm_num [Int.floor_eq_iff]
  · norm_num

/-- C9 amended: in the monitoring state with current (mA) in [1, 30000], an
empty read reports a failure (no response) without crashing, and a
structurally valid 19-byte response yields the integer truncation of
capacity/(current/1000); current = 0, though accepted by the parameter check,
must be excluded — there the division raises (see the division-by-zero
theorem). -/
theorem C9_measure_resistance (s : ZkState) (hs : s.device_state = .monitoring)
    (current : Int) (h1 : 1 ≤ current) (h2 : current ≤ 30000) :
    (measure_resistance s true current [] =
      .ok ({ s with device_state := .idle, part_number := none }, .value none)) ∧
    (∀ b0 b1 b2 b3 b4 b5 b6 b7 b8 b9 b10 b11 b12 b13 b14 b15 b16 b17 b18 : Nat,
      check_buffer_validity
        [b0, b1, b2, b3, b4, b5, b6, b7, b8, b9, b10, b11, b12, b13, b14, b15, b16, b17,
          b18] = true →
      (measure_resistance s true current
          [b0, b1, b2, b3, b4, b5, b6, b7, b8, b9, b10, b11, b12, b13, b14, b15, b16, b17,
            b18]).map (fun r => r.2) =
        .ok (.value (some ⌊((b6 * 240 + b7 : Nat) : ℚ) * 1000 / (current : ℚ)⌋))) := by
  have hlt : ¬current < 0 := by omega
  have hgt : ¬current > 30000 := by omega
  constructor
  · simp [measure_resistance, read_response, hs, hlt, hgt]
  · intro b0 b1 b2 b3 b4 b5 b6 b7 b8 b9 b10 b11 b12 b13 b14 b15 b16 b17 b18 hchk
    exact measure_resistance_ok s hs current h1 h2
      _ _ _ _ _ _ _ _ _ _ _ _ _ _ _ _ _ _ _ hchk

/-- C9 witness: the amended theorem at current 1000 mA — empty read on the
left, and on the right the capacity-500 fixture giving
500/(1000/1000) = 500 mOhm, the worked example. -/
theorem C9_measure_resistance_witness :
    (measure_resistance ⟨.monitoring, none, none⟩ true 1000 [] =
      .ok (⟨.idle, none, none⟩, .value none)) ∧
    ((measure_resistance ⟨.monitoring, none, none⟩ true 1000
        [250, 1, 0, 0, 0, 0, 2, 20, 0, 0, 0, 0, 0, 0, 0, 0, 5, 18, 248]).map (fun r => r.2) =
      .ok (.value (some 500))) := by
  have h := C9_measure_resistance ⟨.monitoring, none, none⟩ rfl 1000 (by norm_num)
    (by norm_num)
  refine ⟨h.1, ?_⟩
  have h2 := h.2 250 1 0 0 0 0 2 20 0 0 0 0 0 0 0 0 5 18 248 (by decide)
  norm_num at h2
  exact h2

end Zketech
